import Mathlib

/-!
Verification of `src/ClientForm.tsx` (client record form controller).

The component is shallowly embedded: React state hooks become a
`ComponentState` record, the two async handlers (`fetchClient`,
`handleSubmit`) become pure functions from the current state and the
fetch outcome to the next state (plus, for submit, the list of scheduled
navigations), and the UI event loop becomes a labelled step relation.
JavaScript truthiness on optional strings is modelled by `jsOr`
(the `x || d` idiom) and on the optional numeric id by `jsTruthyId`.
-/

/-- The `ClientFormData` record of `src/ClientForm.tsx` lines 11-22:
the ten form fields, all strings. -/
structure ClientFormData where
  full_name : String
  email : String
  phone : String
  address : String
  passport_number : String
  passport_issue_date : String
  passport_expiry_date : String
  driver_license_number : String
  driver_license_expiry : String
  notes : String
deriving DecidableEq

/-- The initial form state (lines 25-36): every field the empty string.
The object literal rebuilt on successful creation (lines 116-127) is the
same all-blank record. -/
def emptyFormData : ClientFormData :=
  { full_name := ""
    email := ""
    phone := ""
    address := ""
    passport_number := ""
    passport_issue_date := ""
    passport_expiry_date := ""
    driver_license_number := ""
    driver_license_expiry := ""
    notes := "" }

/-- The component props (lines 6-9): `clientId?: number` is an optional
number, `isEditMode` defaults to `false`. -/
structure ClientFormProps where
  clientId : Option Nat
  isEditMode : Bool
deriving DecidableEq

/-- The React state hooks of the component (lines 25-41):
`formData`, `loading`, `submitting`, `error`, `success`. -/
structure ComponentState where
  formData : ClientFormData
  loading : Bool
  submitting : Bool
  error : String
  success : String
deriving DecidableEq

/-- State at mount (lines 25-41): blank fields, `loading` initialised from
`isEditMode`, `submitting` false, empty messages. -/
def initialState (props : ClientFormProps) : ComponentState :=
  { formData := emptyFormData
    loading := props.isEditMode
    submitting := false
    error := ""
    success := "" }

/-- JavaScript `v || d` on an optional string: `null`/absent and the empty
string are falsy, so they yield the default. -/
def jsOr (v : Option String) (d : String) : String :=
  match v with
  | Option.none => d
  | some s => if s = "" then d else s

/-- JavaScript truthiness of the optional numeric `clientId`
(line 45: `isEditMode && clientId`): `undefined` and `0` are falsy. -/
def jsTruthyId : Option Nat → Bool
  | Option.none => false
  | some n => n != 0

/-- Template interpolation of `clientId` into a URL: an absent number
renders as the literal text `undefined`. -/
def clientIdStr : Option Nat → String
  | Option.none => "undefined"
  | some n => toString n

/-- HTTP methods used by the component. -/
inductive HttpMethod where
  | GET
  | POST
  | PUT
deriving DecidableEq

/-- An outbound HTTP request: method, URL, and the JSON body
(`Option.none` for the bodiless GET). -/
structure Request where
  method : HttpMethod
  url : String
  body : Option ClientFormData
deriving DecidableEq

/-- Outcome of an `await fetch` + `await response.json()` pair:
either the parsed JSON body, or a thrown transport/parse error
caught by the surrounding `try`/`catch`. -/
inductive FetchResult (α : Type) where
  | ok : α → FetchResult α
  | thrown : FetchResult α
deriving DecidableEq

/-- The client object carried by a successful GET response (lines 56-67).
Fields the code reads bare (`full_name`, `phone`, `passport_number`) are
strings; fields the code guards with `|| ''` are optional. -/
structure ClientJson where
  full_name : String
  email : Option String
  phone : String
  address : Option String
  passport_number : String
  passport_issue_date : Option String
  passport_expiry_date : Option String
  driver_license_number : Option String
  driver_license_expiry : Option String
  notes : Option String
deriving DecidableEq

/-- Parsed body of the GET `/api/clients/{id}` response:
`{ success, client?, message? }`. -/
structure LoadBody where
  success : Bool
  client : Option ClientJson
  message : Option String
deriving DecidableEq

/-- Parsed body of the POST/PUT response: `{ success, message? }`. -/
structure SubmitBody where
  success : Bool
  message : Option String
deriving DecidableEq

/-- Lines 56-67: build the form state from the fetched client, replacing a
falsy optional field by the empty string via `|| ''`. -/
def populateFormData (c : ClientJson) : ClientFormData :=
  { full_name := c.full_name
    email := jsOr c.email ""
    phone := c.phone
    address := jsOr c.address ""
    passport_number := c.passport_number
    passport_issue_date := jsOr c.passport_issue_date ""
    passport_expiry_date := jsOr c.passport_expiry_date ""
    driver_license_number := jsOr c.driver_license_number ""
    driver_license_expiry := jsOr c.driver_license_expiry ""
    notes := jsOr c.notes "" }

/-- The `fetchClient` handler (lines 50-77) as a state transformer over the
outcome of the GET request: on `data.success && data.client` populate the
fields, otherwise set an error message; the `finally` clause always clears
`loading`. -/
def fetchClient (s : ComponentState) (r : FetchResult LoadBody) : ComponentState :=
  let s1 :=
    match r with
    | FetchResult.ok d =>
      match d.success, d.client with
      | true, some c => { s with formData := populateFormData c }
      | _, _ => { s with error := jsOr d.message "Не удалось загрузить данные клиента" }
    | FetchResult.thrown => { s with error := "Ошибка при загрузке данных" }
  { s1 with loading := false }

/-- The names of the ten form inputs (the `name` attributes in the markup,
lines 168-311). -/
inductive FieldName where
  | full_name
  | email
  | phone
  | address
  | passport_number
  | passport_issue_date
  | passport_expiry_date
  | driver_license_number
  | driver_license_expiry
  | notes
deriving DecidableEq

/-- Read a field of the form record by name. -/
def getField (fd : ClientFormData) : FieldName → String
  | FieldName.full_name => fd.full_name
  | FieldName.email => fd.email
  | FieldName.phone => fd.phone
  | FieldName.address => fd.address
  | FieldName.passport_number => fd.passport_number
  | FieldName.passport_issue_date => fd.passport_issue_date
  | FieldName.passport_expiry_date => fd.passport_expiry_date
  | FieldName.driver_license_number => fd.driver_license_number
  | FieldName.driver_license_expiry => fd.driver_license_expiry
  | FieldName.notes => fd.notes

/-- The computed-key merge `{...prev, [name]: value}` of lines 82-85. -/
def setField (fd : ClientFormData) : FieldName → String → ClientFormData
  | FieldName.full_name, v => { fd with full_name := v }
  | FieldName.email, v => { fd with email := v }
  | FieldName.phone, v => { fd with phone := v }
  | FieldName.address, v => { fd with address := v }
  | FieldName.passport_number, v => { fd with passport_number := v }
  | FieldName.passport_issue_date, v => { fd with passport_issue_date := v }
  | FieldName.passport_expiry_date, v => { fd with passport_expiry_date := v }
  | FieldName.driver_license_number, v => { fd with driver_license_number := v }
  | FieldName.driver_license_expiry, v => { fd with driver_license_expiry := v }
  | FieldName.notes, v => { fd with notes := v }

/-- The `handleChange` handler (lines 79-86): pure local field merge. -/
def handleChange (s : ComponentState) (n : FieldName) (v : String) : ComponentState :=
  { s with formData := setField s.formData n v }

/-- The inputs carrying the `required` attribute in the markup:
`full_name` (line 180), `phone` (line 195), `passport_number` (line 238). -/
def requiredFields : List FieldName :=
  [FieldName.full_name, FieldName.phone, FieldName.passport_number]

/-- Modelled from the spec: the browser-level required-field gate (HTML
constraint validation), which is not part of the component code. The spec
states that submitting with an empty required field never reaches the
network call because the browser blocks form submission; accordingly the
submit event only fires when every input marked `required` is non-empty. -/
def browserAllowsSubmit (fd : ClientFormData) : Bool :=
  requiredFields.all (fun n => getField fd n != "")

/-- Line 38 and lines 44-48: the mount effect calls `fetchClient` exactly
when `isEditMode && clientId` is truthy. -/
def effectFetches (props : ClientFormProps) : Bool :=
  props.isEditMode && jsTruthyId props.clientId

/-- The GET request issued by `fetchClient` (line 52). -/
def fetchRequest (props : ClientFormProps) : Request :=
  { method := HttpMethod.GET
    url := "/api/clients/" ++ clientIdStr props.clientId
    body := Option.none }

/-- Lines 95-97: the submit URL is chosen by `isEditMode`. -/
def submitUrl (props : ClientFormProps) : String :=
  if props.isEditMode then "/api/clients/" ++ clientIdStr props.clientId
  else "/api/clients"

/-- Line 99: the submit method is chosen by `isEditMode`. -/
def submitMethod (props : ClientFormProps) : HttpMethod :=
  if props.isEditMode then HttpMethod.PUT else HttpMethod.POST

/-- The write request of lines 101-107: chosen method and URL, with the
full current field set as JSON body. -/
def submitRequest (props : ClientFormProps) (fd : ClientFormData) : Request :=
  { method := submitMethod props
    url := submitUrl props
    body := some fd }

/-- Lines 89-92: on entry to `handleSubmit` the previous messages are
cleared and `submitting` is set. -/
def submitEnter (s : ComponentState) : ComponentState :=
  { s with error := "", success := "", submitting := true }

/-- Lines 109-139: react to the parsed POST/PUT response. On
`data.success`: set the success message, reset the fields when creating
(lines 114-128), and schedule one navigation to `/clients` after 2000 ms
(lines 131-133). On `success` falsy or a thrown error: set an error
message and schedule nothing. -/
def handleSubmitResponse (props : ClientFormProps) (s : ComponentState)
    (r : FetchResult SubmitBody) : ComponentState × List (Nat × String) :=
  match r with
  | FetchResult.ok d =>
    if d.success then
      let s1 := { s with success := jsOr d.message "Операция выполнена успешно" }
      let s2 := if !props.isEditMode then { s1 with formData := emptyFormData } else s1
      (s2, [(2000, "/clients")])
    else
      ({ s with error := jsOr d.message "Произошла ошибка" }, [])
  | FetchResult.thrown =>
    ({ s with error := "Произошла ошибка при отправке данных" }, [])

/-- The `handleSubmit` handler (lines 88-143): clear messages and enter
`submitting`, react to the response, and in the `finally` clause always
clear `submitting`. Returns the next state and the scheduled navigations
as (delay in ms, path) pairs. -/
def handleSubmit (props : ClientFormProps) (s : ComponentState)
    (r : FetchResult SubmitBody) : ComponentState × List (Nat × String) :=
  let p := handleSubmitResponse props (submitEnter s) r
  ({ p.1 with submitting := false }, p.2)

/-- What the component renders. -/
inductive View where
  | loadingIndicator
  | formPage
deriving DecidableEq

/-- Lines 145-147: while `loading` is set only the loading indicator is
rendered; otherwise the form page. -/
def render (s : ComponentState) : View :=
  if s.loading then View.loadingIndicator else View.formPage

/-- An HTTP response as the browser delivers it: a status code and the
parsed JSON body. The component reads the body via `response.json()`
(lines 53 and 109) and never consults the status. -/
structure HttpResponse (β : Type) where
  status : Nat
  body : β
deriving DecidableEq

/-- `await response.json()`: yields the parsed body, ignoring the status. -/
def responseJson {β : Type} (resp : HttpResponse β) : β := resp.body

/-- `fetchClient` run against a full HTTP response. -/
def fetchClientHttp (s : ComponentState) (resp : HttpResponse LoadBody) : ComponentState :=
  fetchClient s (FetchResult.ok (responseJson resp))

/-- `handleSubmit` run against a full HTTP response. -/
def handleSubmitHttp (props : ClientFormProps) (s : ComponentState)
    (resp : HttpResponse SubmitBody) : ComponentState × List (Nat × String) :=
  handleSubmit props s (FetchResult.ok (responseJson resp))

/-- One UI event of the mounted component, labelled with the request it
issues (if any). Events are only available when the corresponding UI
surface exists: the fetch fires only under the mount-effect condition of
lines 44-48; field edits, submission and cancel need the form page
(lines 145-147 render only the loading indicator while `loading`);
submission additionally needs the submit button enabled (line 317) and the
browser-level required-field gate. -/
inductive Step (props : ClientFormProps) : ComponentState → Option Request → ComponentState → Prop where
  | fetch (s : ComponentState) (r : FetchResult LoadBody) :
      effectFetches props = true →
      Step props s (some (fetchRequest props)) (fetchClient s r)
  | change (s : ComponentState) (n : FieldName) (v : String) :
      s.loading = false →
      Step props s Option.none (handleChange s n v)
  | submit (s : ComponentState) (r : FetchResult SubmitBody) :
      s.loading = false →
      s.submitting = false →
      browserAllowsSubmit s.formData = true →
      Step props s (some (submitRequest props s.formData)) (handleSubmit props s r).1
  | cancel (s : ComponentState) :
      s.loading = false →
      Step props s Option.none s

/-- States the mounted component can reach from its initial state. -/
inductive Reachable (props : ClientFormProps) : ComponentState → Prop where
  | init : Reachable props (initialState props)
  | step {s s' : ComponentState} {l : Option Request} :
      Reachable props s → Step props s l s' → Reachable props s'

/-- The claim that the create/update choice follows the supplied identifier:
no identifier means POST `/api/clients`, an identifier means PUT
`/api/clients/{id}`. -/
def identifierChoosesMethod : Prop :=
  ∀ (props : ClientFormProps) (fd : ClientFormData),
    (props.clientId = Option.none →
      (submitRequest props fd).method = HttpMethod.POST ∧
      (submitRequest props fd).url = "/api/clients") ∧
    (∀ id : Nat, props.clientId = some id →
      (submitRequest props fd).method = HttpMethod.PUT ∧
      (submitRequest props fd).url = "/api/clients/" ++ toString id)

/-- Classification of a load outcome as failed: a thrown error, a falsy
`success` flag, or a missing `client` object. -/
def loadFails : FetchResult LoadBody → Bool
  | FetchResult.ok d => !(d.success && d.client.isSome)
  | FetchResult.thrown => true

/-- Classification of a submit outcome as failed: a thrown error or a
falsy `success` flag. -/
def submitFails : FetchResult SubmitBody → Bool
  | FetchResult.ok d => !d.success
  | FetchResult.thrown => true

theorem jsOr_ne_empty (v : Option String) (d : String) (hd : d ≠ "") :
    jsOr v d ≠ "" := by
  cases v with
  | none => simpa [jsOr] using hd
  | some s =>
    by_cases h : s = "" <;> simp [jsOr, h, hd]

theorem jsOr_empty_default (v : Option String) : jsOr v "" = v.getD "" := by
  cases v with
  | none => rfl
  | some s => by_cases h : s = "" <;> simp [jsOr, h]

/-- C1: the claim that submit() chooses create vs. update by whether an
identifier was supplied at mount is false: at the concrete mount
`clientId = some 5, isEditMode = false` the code sends POST, not PUT. -/
theorem c1_counterexample : ¬ identifierChoosesMethod := by
  intro h
  have h2 := ((h { clientId := some 5, isEditMode := false } emptyFormData).2 5 rfl).1
  simp [submitRequest, submitMethod] at h2

/-- C1 (amended): submit() chooses create vs. update by the `isEditMode`
flag, not by the identifier: when `isEditMode` is false it sends
POST `/api/clients`, and when `isEditMode` is true it sends
PUT `/api/clients/{clientId}` (with the literal text `undefined`
interpolated when no identifier was supplied). -/
theorem c1_mode_chooses_method (props : ClientFormProps) (fd : ClientFormData) :
    (props.isEditMode = false →
      submitRequest props fd =
        { method := HttpMethod.POST, url := "/api/clients", body := some fd }) ∧
    (props.isEditMode = true →
      submitRequest props fd =
        { method := HttpMethod.PUT
          url := "/api/clients/" ++ clientIdStr props.clientId
          body := some fd }) := by
  constructor
  · intro h
    simp [submitRequest, submitMethod, submitUrl, h]
  · intro h
    simp [submitRequest, submitMethod, submitUrl, h]

theorem c1_mode_chooses_method_witness :
    submitRequest { clientId := some 5, isEditMode := false } emptyFormData =
      { method := HttpMethod.POST, url := "/api/clients", body := some emptyFormData } ∧
    submitRequest { clientId := some 7, isEditMode := true } emptyFormData =
      { method := HttpMethod.PUT, url := "/api/clients/7", body := some emptyFormData } :=
  ⟨(c1_mode_chooses_method { clientId := some 5, isEditMode := false } emptyFormData).1 rfl,
   by
    have h := (c1_mode_chooses_method { clientId := some 7, isEditMode := true } emptyFormData).2 rfl
    simpa [clientIdStr] using h⟩

/-- C2: in create mode, a response whose body reports success sets the
success message (server-supplied or the default, never empty), resets all
ten form fields to the all-blank record, and schedules exactly one
navigation to `/clients` after a 2000 ms delay. -/
theorem c2_create_success (props : ClientFormProps) (s : ComponentState) (d : SubmitBody)
    (hmode : props.isEditMode = false) (hsucc : d.success = true) :
    (handleSubmit props s (FetchResult.ok d)).1.success =
      jsOr d.message "Операция выполнена успешно" ∧
    (handleSubmit props s (FetchResult.ok d)).1.success ≠ "" ∧
    (handleSubmit props s (FetchResult.ok d)).1.formData = emptyFormData ∧
    (handleSubmit props s (FetchResult.ok d)).2 = [(2000, "/clients")] := by
  refine ⟨?_, ?_, ?_, ?_⟩ <;>
    simp [handleSubmit, handleSubmitResponse, submitEnter, hmode, hsucc]
  exact jsOr_ne_empty d.message _ (by decide)

theorem c2_create_success_witness :
    (handleSubmit { clientId := Option.none, isEditMode := false }
        (initialState { clientId := Option.none, isEditMode := false })
        (FetchResult.ok { success := true, message := some "Created" })).1.success =
      jsOr (some "Created") "Операция выполнена успешно" ∧
    (handleSubmit { clientId := Option.none, isEditMode := false }
        (initialState { clientId := Option.none, isEditMode := false })
        (FetchResult.ok { success := true, message := some "Created" })).1.success ≠ "" ∧
    (handleSubmit { clientId := Option.none, isEditMode := false }
        (initialState { clientId := Option.none, isEditMode := false })
        (FetchResult.ok { success := true, message := some "Created" })).1.formData =
      emptyFormData ∧
    (handleSubmit { clientId := Option.none, isEditMode := false }
        (initialState { clientId := Option.none, isEditMode := false })
        (FetchResult.ok { success := true, message := some "Created" })).2 =
      [(2000, "/clients")] :=
  c2_create_success { clientId := Option.none, isEditMode := false }
    (initialState { clientId := Option.none, isEditMode := false })
    { success := true, message := some "Created" } rfl rfl

/-- C3: in edit mode, a response whose body reports success leaves the form
fields exactly as they were, and schedules the same single navigation to
`/clients` after a 2000 ms delay as the create case. -/
theorem c3_update_success (props : ClientFormProps) (s : ComponentState) (d : SubmitBody)
    (hmode : props.isEditMode = true) (hsucc : d.success = true) :
    (handleSubmit props s (FetchResult.ok d)).1.formData = s.formData ∧
    (handleSubmit props s (FetchResult.ok d)).2 = [(2000, "/clients")] := by
  constructor <;> simp [handleSubmit, handleSubmitResponse, submitEnter, hmode, hsucc]

theorem c3_update_success_witness :
    (handleSubmit { clientId := some 42, isEditMode := true }
        (initialState { clientId := some 42, isEditMode := true })
        (FetchResult.ok { success := true, message := Option.none })).1.formData =
      (initialState { clientId := some 42, isEditMode := true }).formData ∧
    (handleSubmit { clientId := some 42, isEditMode := true }
        (initialState { clientId := some 42, isEditMode := true })
        (FetchResult.ok { success := true, message := Option.none })).2 =
      [(2000, "/clients")] :=
  c3_update_success { clientId := some 42, isEditMode := true }
    (initialState { clientId := some 42, isEditMode := true })
    { success := true, message := Option.none } rfl rfl

/-- C4: a load whose response reports success and carries a client object
populates every form field with the server-supplied value, where each
optional field that is null or absent is normalized to the empty string. -/
theorem c4_load_populates (s : ComponentState) (d : LoadBody) (c : ClientJson)
    (hsucc : d.success = true) (hclient : d.client = some c) :
    (fetchClient s (FetchResult.ok d)).formData.full_name = c.full_name ∧
    (fetchClient s (FetchResult.ok d)).formData.phone = c.phone ∧
    (fetchClient s (FetchResult.ok d)).formData.passport_number = c.passport_number ∧
    (fetchClient s (FetchResult.ok d)).formData.email = c.email.getD "" ∧
    (fetchClient s (FetchResult.ok d)).formData.address = c.address.getD "" ∧
    (fetchClient s (FetchResult.ok d)).formData.passport_issue_date =
      c.passport_issue_date.getD "" ∧
    (fetchClient s (FetchResult.ok d)).formData.passport_expiry_date =
      c.passport_expiry_date.getD "" ∧
    (fetchClient s (FetchResult.ok d)).formData.driver_license_number =
      c.driver_license_number.getD "" ∧
    (fetchClient s (FetchResult.ok d)).formData.driver_license_expiry =
      c.driver_license_expiry.getD "" ∧
    (fetchClient s (FetchResult.ok d)).formData.notes = c.notes.getD "" := by
  refine ⟨?_, ?_, ?_, ?_, ?_, ?_, ?_, ?_, ?_, ?_⟩ <;>
    simp [fetchClient, populateFormData, hsucc, hclient, jsOr_empty_default]

theorem c4_load_populates_witness :
    (fetchClient (initialState { clientId := some 42, isEditMode := true })
        (FetchResult.ok
          { success := true
            client := some
              { full_name := "A", email := Option.none, phone := "1"
                address := Option.none, passport_number := "P"
                passport_issue_date := Option.none, passport_expiry_date := Option.none
                driver_license_number := Option.none, driver_license_expiry := Option.none
                notes := Option.none }
            message := Option.none })).formData.full_name = "A" ∧
    (fetchClient (initialState { clientId := some 42, isEditMode := true })
        (FetchResult.ok
          { success := true
            client := some
              { full_name := "A", email := Option.none, phone := "1"
                address := Option.none, passport_number := "P"
                passport_issue_date := Option.none, passport_expiry_date := Option.none
                driver_license_number := Option.none, driver_license_expiry := Option.none
                notes := Option.none }
            message := Option.none })).formData.email = "" :=
  have h := c4_load_populates (initialState { clientId := some 42, isEditMode := true })
    { success := true
      client := some
        { full_name := "A", email := Option.none, phone := "1"
          address := Option.none, passport_number := "P"
          passport_issue_date := Option.none, passport_expiry_date := Option.none
          driver_license_number := Option.none, driver_license_expiry := Option.none
          notes := Option.none }
      message := Option.none }
    { full_name := "A", email := Option.none, phone := "1"
      address := Option.none, passport_number := "P"
      passport_issue_date := Option.none, passport_expiry_date := Option.none
      driver_license_number := Option.none, driver_license_expiry := Option.none
      notes := Option.none } rfl rfl
  ⟨h.1, h.2.2.2.1⟩

/-- C5: every completed load clears `loading`; and when the load fails
(thrown error, falsy success flag, or missing client object) and the
fields were at their initial blanks, they stay blank and a non-empty error
message is set — the server-supplied message or the respective canned
fallback. -/
theorem c5_failed_load (s : ComponentState) (r : FetchResult LoadBody)
    (hblank : s.formData = emptyFormData) :
    (fetchClient s r).loading = false ∧
    (loadFails r = true →
      (fetchClient s r).formData = emptyFormData ∧
      (fetchClient s r).error =
        (match r with
          | FetchResult.ok d => jsOr d.message "Не удалось загрузить данные клиента"
          | FetchResult.thrown => "Ошибка при загрузке данных") ∧
      (fetchClient s r).error ≠ "") := by
  constructor
  · cases r with
    | ok d =>
      rcases d with ⟨succ, cl, msg⟩
      cases succ <;> cases cl <;> simp [fetchClient]
    | thrown => simp [fetchClient]
  · intro hfail
    cases r with
    | ok d =>
      rcases d with ⟨succ, cl, msg⟩
      cases succ with
      | false =>
        cases cl <;>
          exact ⟨by simpa [fetchClient] using hblank, by simp [fetchClient],
            by simpa [fetchClient] using jsOr_ne_empty msg _ (by decide)⟩
      | true =>
        cases cl with
        | none =>
          exact ⟨by simpa [fetchClient] using hblank, by simp [fetchClient],
            by simpa [fetchClient] using jsOr_ne_empty msg _ (by decide)⟩
        | some c => simp [loadFails] at hfail
    | thrown =>
      exact ⟨by simpa [fetchClient] using hblank, by simp [fetchClient],
        by simp [fetchClient]⟩

theorem c5_failed_load_witness :
    (fetchClient (initialState { clientId := some 42, isEditMode := true })
        FetchResult.thrown).loading = false ∧
    (loadFails (FetchResult.thrown : FetchResult LoadBody) = true →
      (fetchClient (initialState { clientId := some 42, isEditMode := true })
          FetchResult.thrown).formData = emptyFormData ∧
      (fetchClient (initialState { clientId := some 42, isEditMode := true })
          FetchResult.thrown).error =
        (match (FetchResult.thrown : FetchResult LoadBody) with
          | FetchResult.ok d => jsOr d.message "Не удалось загрузить данные клиента"
          | FetchResult.thrown => "Ошибка при загрузке данных") ∧
      (fetchClient (initialState { clientId := some 42, isEditMode := true })
          FetchResult.thrown).error ≠ "") :=
  c5_failed_load (initialState { clientId := some 42, isEditMode := true })
    FetchResult.thrown rfl

/-- C6: a failed submit (falsy success flag or thrown error) schedules no
navigation, leaves every form field unchanged, and sets a non-empty error
message: the server-supplied one when present, otherwise the canned
fallback, with a distinct canned text for the thrown-error case. -/
theorem c6_failed_submit (props : ClientFormProps) (s : ComponentState)
    (r : FetchResult SubmitBody) (hfail : submitFails r = true) :
    (handleSubmit props s r).2 = [] ∧
    (handleSubmit props s r).1.formData = s.formData ∧
    (handleSubmit props s r).1.error =
      (match r with
        | FetchResult.ok d => jsOr d.message "Произошла ошибка"
        | FetchResult.thrown => "Произошла ошибка при отправке данных") ∧
    (handleSubmit props s r).1.error ≠ "" ∧
    "Произошла ошибка" ≠ "Произошла ошибка при отправке данных" := by
  cases r with
  | ok d =>
    rcases d with ⟨succ, msg⟩
    cases succ with
    | false =>
      refine ⟨by simp [handleSubmit, handleSubmitResponse, submitEnter],
        by simp [handleSubmit, handleSubmitResponse, submitEnter],
        by simp [handleSubmit, handleSubmitResponse, submitEnter], ?_, by decide⟩
      simpa [handleSubmit, handleSubmitResponse, submitEnter] using
        jsOr_ne_empty msg _ (by decide)
    | true => simp [submitFails] at hfail
  | thrown =>
    exact ⟨by simp [handleSubmit, handleSubmitResponse, submitEnter],
      by simp [handleSubmit, handleSubmitResponse, submitEnter],
      by simp [handleSubmit, handleSubmitResponse, submitEnter],
      by simp [handleSubmit, handleSubmitResponse, submitEnter], by decide⟩

theorem c6_failed_submit_witness :
    (handleSubmit { clientId := Option.none, isEditMode := false }
        (initialState { clientId := Option.none, isEditMode := false })
        (FetchResult.ok { success := false, message := some "Duplicate passport" })).2 = [] ∧
    (handleSubmit { clientId := Option.none, isEditMode := false }
        (initialState { clientId := Option.none, isEditMode := false })
        (FetchResult.ok { success := false, message := some "Duplicate passport" })).1.formData =
      (initialState { clientId := Option.none, isEditMode := false }).formData ∧
    (handleSubmit { clientId := Option.none, isEditMode := false }
        (initialState { clientId := Option.none, isEditMode := false })
        (FetchResult.ok { success := false, message := some "Duplicate passport" })).1.error =
      (match (FetchResult.ok { success := false, message := some "Duplicate passport" } :
          FetchResult SubmitBody) with
        | FetchResult.ok d => jsOr d.message "Произошла ошибка"
        | FetchResult.thrown => "Произошла ошибка при отправке данных") ∧
    (handleSubmit { clientId := Option.none, isEditMode := false }
        (initialState { clientId := Option.none, isEditMode := false })
        (FetchResult.ok { success := false, message := some "Duplicate passport" })).1.error ≠ "" ∧
    "Произошла ошибка" ≠ "Произошла ошибка при отправке данных" :=
  c6_failed_submit { clientId := Option.none, isEditMode := false }
    (initialState { clientId := Option.none, isEditMode := false })
    (FetchResult.ok { success := false, message := some "Duplicate passport" }) rfl

/-- C7: every invocation of submit() first clears any prior error and
success message and sets `submitting`, and for every outcome the final
state has `submitting` cleared again. -/
theorem c7_submitting_lifecycle (props : ClientFormProps) (s : ComponentState)
    (r : FetchResult SubmitBody) :
    (submitEnter s).error = "" ∧
    (submitEnter s).success = "" ∧
    (submitEnter s).submitting = true ∧
    handleSubmit props s r =
      ({ (handleSubmitResponse props (submitEnter s) r).1 with submitting := false },
        (handleSubmitResponse props (submitEnter s) r).2) ∧
    (handleSubmit props s r).1.submitting = false := by
  refine ⟨rfl, rfl, rfl, rfl, ?_⟩
  simp [handleSubmit]

/-- C8: a step that issues a request while a required field (`full_name`,
`phone` or `passport_number`) is empty can only be the GET of the initial
load: the submit network call is never reached, because the submit step
requires the browser-level required-field gate to pass. -/
theorem c8_required_gate (props : ClientFormProps) (s s' : ComponentState) (req : Request)
    (hempty : s.formData.full_name = "" ∨ s.formData.phone = "" ∨
      s.formData.passport_number = "")
    (hstep : Step props s (some req) s') :
    req.method = HttpMethod.GET := by
  cases hstep with
  | fetch r hf => rfl
  | submit r hl hs hgate =>
    simp [browserAllowsSubmit, requiredFields, getField] at hgate
    rcases hempty with h | h | h
    · exact absurd h hgate.1
    · exact absurd h hgate.2.1
    · exact absurd h hgate.2.2

theorem c8_required_gate_witness :
    (fetchRequest { clientId := some 42, isEditMode := true }).method = HttpMethod.GET :=
  c8_required_gate { clientId := some 42, isEditMode := true }
    (initialState { clientId := some 42, isEditMode := true })
    (fetchClient (initialState { clientId := some 42, isEditMode := true })
      FetchResult.thrown)
    (fetchRequest { clientId := some 42, isEditMode := true })
    (Or.inl rfl)
    (Step.fetch (initialState { clientId := some 42, isEditMode := true })
      FetchResult.thrown rfl)

/-- C9: the success/failure classification of both handlers depends only on
the parsed response body, never on the HTTP status code: the outcome is
invariant under any change of status, a status-500 response whose body has
`success:true` is treated as success (message set, navigation scheduled),
and a status-200 response whose body has `success:false` is treated as
failure (error set, nothing scheduled). -/
theorem c9_status_ignored (props : ClientFormProps) (s : ComponentState)
    (st st' : Nat) (lb : LoadBody) (sb : SubmitBody) :
    fetchClientHttp s { status := st, body := lb } =
      fetchClientHttp s { status := st', body := lb } ∧
    handleSubmitHttp props s { status := st, body := sb } =
      handleSubmitHttp props s { status := st', body := sb } ∧
    (handleSubmitHttp props s
        { status := 500, body := { success := true, message := Option.none } }).1.success ≠ "" ∧
    (handleSubmitHttp props s
        { status := 500, body := { success := true, message := Option.none } }).2 =
      [(2000, "/clients")] ∧
    (handleSubmitHttp props s
        { status := 200, body := { success := false, message := Option.none } }).1.error ≠ "" ∧
    (handleSubmitHttp props s
        { status := 200, body := { success := false, message := Option.none } }).2 = [] := by
  rcases props with ⟨cid, mode⟩
  cases mode <;>
    refine ⟨rfl, rfl, ?_, ?_, ?_, ?_⟩ <;>
      simp [handleSubmitHttp, responseJson, handleSubmit, handleSubmitResponse, submitEnter, jsOr]

/-- C10: for a mount with `isEditMode = true` and `clientId` absent or
falsy, the mount effect never fires the fetch, the component never
leaves the `loading` state, no event (hence no request) is ever possible,
and only the loading indicator is ever rendered. -/
theorem c10_stuck_loading (props : ClientFormProps) (s : ComponentState)
    (hmode : props.isEditMode = true) (hid : jsTruthyId props.clientId = false)
    (hreach : Reachable props s) :
    effectFetches props = false ∧
    s.loading = true ∧
    render s = View.loadingIndicator ∧
    ∀ (l : Option Request) (s' : ComponentState), ¬ Step props s l s' := by
  have heff : effectFetches props = false := by
    simp [effectFetches, hid]
  have hload : s.loading = true := by
    induction hreach with
    | init => simpa [initialState] using hmode
    | step hr hs ih =>
      cases hs with
      | fetch r hf => exact absurd hf (by simp [heff])
      | change n v hl => exact absurd ih (by simp [hl])
      | submit r hl hsub hgate => exact absurd ih (by simp [hl])
      | cancel hl => exact absurd ih (by simp [hl])
  refine ⟨heff, hload, by simp [render, hload], ?_⟩
  intro l s' hs
  cases hs with
  | fetch r hf => exact absurd hf (by simp [heff])
  | change n v hl => exact absurd hload (by simp [hl])
  | submit r hl hsub hgate => exact absurd hload (by simp [hl])
  | cancel hl => exact absurd hload (by simp [hl])

theorem c10_stuck_loading_witness :
    effectFetches { clientId := some 0, isEditMode := true } = false ∧
    (initialState { clientId := some 0, isEditMode := true }).loading = true ∧
    render (initialState { clientId := some 0, isEditMode := true }) =
      View.loadingIndicator ∧
    ∀ (l : Option Request) (s' : ComponentState),
      ¬ Step { clientId := some 0, isEditMode := true }
          (initialState { clientId := some 0, isEditMode := true }) l s' :=
  c10_stuck_loading { clientId := some 0, isEditMode := true }
    (initialState { clientId := some 0, isEditMode := true }) rfl rfl Reachable.init
